import Mathlib

/-!
Shallow embedding of the pagination engine, graph materializer and
modification-log query of `hydrus/data/crud.py` and
`hydrus/data/crud_helpers.py`, with theorems checking the specification's
claims about them.

Conventions of the embedding:
* Python `dict`s of query parameters are association lists preserving the
  caller-supplied key order; `k in d` and `d.get(k)` are `hasParam` and
  `List.lookup` (first match).
* Python exceptions become the `PyErr` error type of an `Except` result.
  `unboundLocalError` models the `UnboundLocalError` Python raises when an
  `except` handler reads a local variable that was never assigned.
* Python `//` and `%` on `Int` are `Int.fdiv` / `Int.fmod` (floor division,
  as in Python); division by zero is an explicit `zeroDivisionError` check
  at each place Python would divide.
* SQLAlchemy `.one()` is `queryOne`: zero rows give `noResultFound`, more
  than one give `multipleResultsFound`.
-/

/-- Python exceptions that the embedded code can raise. -/
inductive PyErr where
  | incompatibleParameters : List String → PyErr
  | offsetOutOfRange : String → PyErr
  | pageNotFound : String → PyErr
  | classNotFound : String → PyErr
  | instanceNotFound : String → String → PyErr
  | unboundLocalError : PyErr
  | zeroDivisionError : PyErr
  | indexError : PyErr
  | noResultFound : PyErr
  | multipleResultsFound : PyErr
deriving Repr, DecidableEq

deriving instance DecidableEq for Except

/-- Raw query-parameter mapping: key-value pairs in caller-supplied order. -/
abbrev Params := List (String × String)

/-- Python `key in search_params`. -/
def hasParam (p : Params) (k : String) : Bool :=
  (p.lookup k).isSome

/-- Digits to the natural number they denote (most significant first). -/
def digitsToNat (cs : List Char) : Nat :=
  cs.foldl (fun n c => 10 * n + (c.toNat - Char.toNat (Char.ofNat 48))) 0

/-- Models Python's built-in `int(str)`: surrounding whitespace is stripped,
an optional single sign is allowed, and the rest must be one or more decimal
digits; any other string raises `ValueError` (here: `none`). -/
def pyParseInt (s : String) : Option Int :=
  let cs := ((s.toList.dropWhile (fun c => c.isWhitespace)).reverse.dropWhile
      (fun c => c.isWhitespace)).reverse
  match cs with
  | [] => none
  | c :: rest =>
    let sd : Int × List Char :=
      if c = Char.ofNat 45 then (-1, rest)
      else if c = Char.ofNat 43 then (1, rest)
      else (1, c :: rest)
    if sd.2 ≠ [] ∧ sd.2.all (fun d => d.isDigit) then
      some (sd.1 * (digitsToNat sd.2 : Int))
    else none

/-- `crud_helpers.calculate_page_limit_and_offset` (lines 100-121): if `limit`
is given it replaces `page_size`; with pagination enabled an unset offset is
derived from the page number; with pagination disabled everything is returned
from offset 0. Returns `(limit, offset)` as the Python function does. -/
def calculate_page_limit_and_offset (paginate : Bool) (page_size page result_length : Int)
    (offset limit : Option Int) : Int × Int :=
  let page_size := match limit with
    | some l => l
    | none => page_size
  if paginate then
    let offset := match offset with
      | some o => o
      | none => (page - 1) * page_size
    (page_size, offset)
  else
    (result_length, 0)

/-- The pairwise scan over `incompatible_parameters = ["page", "pageIndex",
"offset"]` of `pre_process_pagination_parameters` (lines 133-143), yielding
the first conflicting pair in the fixed order of the nested loops. -/
def find_incompatible_pair (p : Params) : Option (List String) :=
  if hasParam p "page" && hasParam p "pageIndex" then some ["page", "pageIndex"]
  else if hasParam p "page" && hasParam p "offset" then some ["page", "offset"]
  else if hasParam p "pageIndex" && hasParam p "offset" then some ["pageIndex", "offset"]
  else none

/-- The style-key branch of the `try` block of
`pre_process_pagination_parameters` (lines 146-156), returning `(page,
offset)`.  A failing `int()` raises `ValueError`, and the handler
`except ValueError: raise PageNotFound(page)` then reads the local `page`,
which in these branches was never assigned - so what actually escapes is
`UnboundLocalError`. -/
def pre_process_styles (search_params : Params) (page_size result_length : Int) :
    Except PyErr (Int × Option Int) :=
  match search_params.lookup "pageIndex" with
  | some s =>
    match pyParseInt s with
    | some n => .ok (n, none)
    | none => .error PyErr.unboundLocalError
  | none =>
    match search_params.lookup "offset" with
    | some s =>
      match pyParseInt s with
      | some o =>
        if page_size = 0 then .error PyErr.zeroDivisionError
        else if o > result_length then .error (PyErr.offsetOutOfRange (toString o))
        else .ok (o.fdiv page_size + 1, some o)
      | none => .error PyErr.unboundLocalError
    | none =>
      match search_params.lookup "page" with
      | some s =>
        match pyParseInt s with
        | some n => .ok (n, none)
        | none => .error PyErr.unboundLocalError
      | none => .ok (1, none)

/-- The `limit` part of the `try` block (lines 157-160).  Here the local
`page` is already assigned, so a failing `int()` is turned into
`PageNotFound(page)` by the handler. -/
def pre_process_limit (search_params : Params) (page : Int) : Except PyErr (Option Int) :=
  match search_params.lookup "limit" with
  | some s =>
    match pyParseInt s with
    | some n => .ok (some n)
    | none => .error (PyErr.pageNotFound (toString page))
  | none => .ok none

/-- `crud_helpers.pre_process_pagination_parameters` (lines 124-166):
incompatible-pair scan, then the `try` block deriving `(page, offset,
limit)`, then `calculate_page_limit_and_offset`; returns
`(page, page_limit, offset)`. -/
def pre_process_pagination_parameters (search_params : Params) (paginate : Bool)
    (page_size result_length : Int) : Except PyErr (Int × Int × Int) :=
  match find_incompatible_pair search_params with
  | some pair => .error (PyErr.incompatibleParameters pair)
  | none =>
    match pre_process_styles search_params page_size result_length with
    | .error e => .error e
    | .ok (page, offset) =>
      match pre_process_limit search_params page with
      | .error e => .error e
      | .ok limit =>
        let lo := calculate_page_limit_and_offset paginate page_size page result_length
          offset limit
        .ok (page, lo.1, lo.2)

/-- The three pagination keys skipped by `recreate_iri` (line 55:
`param == "page" or param == "pageIndex" or param == "offset"`). -/
def is_pagination_key (k : String) : Bool :=
  k = "page" || k = "pageIndex" || k = "offset"

/-- `crud_helpers.recreate_iri` (lines 44-58): rebuild the base IRI from the
query parameters, skipping the pagination keys and appending each remaining
parameter as `key=value&` in order. -/
def recreate_iri (API_NAME path : String) (search_params : Params) : String :=
  search_params.foldl
    (fun iri kv =>
      if is_pagination_key kv.1 then iri
      else iri ++ kv.1 ++ "=" ++ kv.2 ++ "&")
    ("/" ++ API_NAME ++ "/" ++ path ++ "?")

/-- The `hydra:view` dictionary built by `crud_helpers.attach_hydra_view`
(lines 169-209); the optional fields model the conditionally-inserted
`hydra:previous` / `hydra:next` keys. -/
structure HydraView where
  atId : String
  first : String
  last : String
  previous : Option String
  next : Option String
deriving Repr, DecidableEq

/-- `crud_helpers.attach_hydra_view` (lines 169-209).  The Python function
mutates `collection_template["hydra:view"]`; here the view is returned.  At
its only call site all of `offset`, `page` and `last` are passed, so they
are plain integers here. -/
def attach_hydra_view (paginate_param : String) (result_length page_size : Int)
    (iri : String) (offset page last : Int) : HydraView :=
  if paginate_param = "offset" then
    { atId := iri ++ paginate_param ++ "=" ++ toString offset
      first := iri ++ paginate_param ++ "=0"
      last := iri ++ paginate_param ++ "=" ++ toString (result_length - page_size)
      previous :=
        if offset > page_size then
          some (iri ++ paginate_param ++ "=" ++ toString (offset - page_size))
        else none
      next :=
        if offset < result_length - page_size then
          some (iri ++ paginate_param ++ "=" ++ toString (offset + page_size))
        else none }
  else
    { atId := iri ++ paginate_param ++ "=" ++ toString page
      first := iri ++ paginate_param ++ "=1"
      last := iri ++ paginate_param ++ "=" ++ toString last
      previous :=
        if page ≠ 1 then some (iri ++ paginate_param ++ "=" ++ toString (page - 1))
        else none
      next :=
        if page ≠ last then some (iri ++ paginate_param ++ "=" ++ toString (page + 1))
        else none }

/-- Python list indexing `l[i]`: negative indices count from the end, and an
index outside `[-len(l), len(l))` raises `IndexError`. -/
def pyListGet (l : List Int) (i : Int) : Except PyErr Int :=
  let j : Int := if i < 0 then i + (l.length : Int) else i
  match l.get? j.toNat with
  | some x => if 0 ≤ j then .ok x else .error PyErr.indexError
  | none => .error PyErr.indexError

/-- The member-building loop of `get_collection` (lines 285-296):
`for i in range(offset, offset + current_page_size)` indexing
`filtered_instances[i]`.  A member template is represented by the id of the
instance it is built from. -/
def sliceMembers (l : List Int) (i : Int) : Nat → Except PyErr (List Int)
  | 0 => .ok []
  | n + 1 =>
    match pyListGet l i with
    | .error e => .error e
    | .ok x =>
      match sliceMembers l (i + 1) n with
      | .error e => .error e
      | .ok rest => .ok (x :: rest)

/-- Lines 282-284 of `get_collection`: `current_page_size = page_size`,
lowered to `result_length - offset` when that is smaller. -/
def current_page_size_of (result_length offset page_size : Int) : Int :=
  if result_length - offset < page_size then result_length - offset else page_size

/-- Lines 303-306 of `get_collection`: the last page number. -/
def last_page_of (result_length page_size : Int) : Int :=
  if result_length ≠ 0 ∧ result_length.fmod page_size = 0 then
    result_length.fdiv page_size
  else
    result_length.fdiv page_size + 1

/-- Lines 311-316 of `get_collection`: which query parameter carries the
navigation links. -/
def choose_paginate_param (p : Params) : String :=
  if hasParam p "offset" then "offset"
  else if hasParam p "pageIndex" then "pageIndex"
  else "page"

/-- The parts of the collection template of `crud.get_collection` that the
pagination engine fills in: the member slice (as instance ids), the
`hydra:totalItems` count (absent when pagination is disabled) and the
`hydra:view` navigation block. -/
structure CollectionResult where
  members : List Int
  totalItems : Option Int
  view : Option HydraView
deriving Repr, DecidableEq

/-- `crud.get_collection` (lines 245-320), with the instances already
filtered (the filtering itself happens in `get_all_filtered_instances`,
outside this function): pre-process the pagination parameters, slice the
members, and - when pagination is enabled - check the page bound and attach
the hydra view. -/
def get_collection (API_NAME path : String) (paginate : Bool) (page_size : Int)
    (search_params : Params) (instances : List Int) : Except PyErr CollectionResult :=
  let result_length : Int := instances.length
  match pre_process_pagination_parameters search_params paginate page_size result_length with
  | .error e => .error e
  | .ok (page, page_size, offset) =>
    match sliceMembers instances offset
        (current_page_size_of result_length offset page_size).toNat with
    | .error e => .error e
    | .ok members =>
      if paginate = false then
        .ok { members := members, totalItems := none, view := none }
      else if page_size = 0 then
        .error PyErr.zeroDivisionError
      else
        let last := last_page_of result_length page_size
        if page < 1 ∨ page > last then
          .error (PyErr.pageNotFound (toString page))
        else
          .ok { members := members
                totalItems := some result_length
                view := some (attach_hydra_view (choose_paginate_param search_params)
                  result_length page_size (recreate_iri API_NAME path search_params)
                  offset page last) }

/-- A concrete 25-element result set, used in the claims' worked examples. -/
def demo25 : List Int := (List.range 25).map Int.ofNat

/-- A concrete 5-element result set. -/
def demo5 : List Int := (List.range 5).map Int.ofNat

/-- A row of one of the triple graphs (`GraphIAC`, `GraphIII`, `GraphIIT`):
subject, predicate and object ids. -/
structure Triple where
  subject : Int
  predicate : Int
  object_ : Int
deriving Repr, DecidableEq

/-- A `Terminal` row: a literal value with an id. -/
structure TerminalRow where
  id : Int
  value : String
deriving Repr, DecidableEq

/-- A `properties` row: property id and human-readable name. -/
structure PropertyRow where
  id : Int
  name : String
deriving Repr, DecidableEq

/-- An `RDFClass` row. -/
structure RDFClassRow where
  id : Int
  name : String
deriving Repr, DecidableEq

/-- An `Instance` row: instance id and the id of its class. -/
structure InstanceRow where
  id : Int
  type_ : Int
deriving Repr, DecidableEq

/-- The tables reachable through the sqlalchemy session in the embedded
functions. -/
structure DB where
  graphIAC : List Triple
  graphIII : List Triple
  graphIIT : List Triple
  terminals : List TerminalRow
  properties : List PropertyRow
  classes : List RDFClassRow
  instances : List InstanceRow
deriving Repr, DecidableEq

/-- sqlalchemy `query(...).filter(pred).one()`: exactly one matching row, a
`NoResultFound` error on zero rows and `MultipleResultsFound` on more. -/
def queryOne {α : Type} (rows : List α) (pred : α → Bool) : Except PyErr α :=
  match rows.filter pred with
  | [] => .error PyErr.noResultFound
  | [r] => .ok r
  | _ :: _ :: _ => .error PyErr.multipleResultsFound

/-- A value in the nested search-parameter mapping handed to `apply_filter`:
either a scalar to compare against a literal, or a nested mapping to follow
through an instance-to-instance edge. -/
inductive FilterVal where
  | scalar : String → FilterVal
  | nested : List (Int × FilterVal) → FilterVal
deriving Repr

/-- `crud_helpers.apply_filter` (lines 18-41): conjunction over the filter
keys; a nested value resolves the `GraphIII` edge with `.one()` and recurses
into the referenced entity, a scalar value resolves the `GraphIIT` edge and
its `Terminal` with `.one()` and compares the literal's value.  The function
itself catches nothing: a failing `.one()` propagates to the caller. -/
def apply_filter (db : DB) (object_id : Int) :
    List (Int × FilterVal) → Except PyErr Bool
  | [] => .ok true
  | (prop, FilterVal.nested sub) :: rest =>
    match queryOne db.graphIII (fun t => t.subject = object_id ∧ t.predicate = prop) with
    | .error e => .error e
    | .ok data =>
      match apply_filter db data.object_ sub with
      | .error e => .error e
      | .ok false => .ok false
      | .ok true => apply_filter db object_id rest
  | (prop, FilterVal.scalar s) :: rest =>
    match queryOne db.graphIIT (fun t => t.subject = object_id ∧ t.predicate = prop) with
    | .error e => .error e
    | .ok data =>
      match queryOne db.terminals (fun t => t.id = data.object_) with
      | .error e => .error e
      | .ok terminal =>
        if terminal.value ≠ s then .ok false
        else apply_filter db object_id rest
termination_by props => sizeOf props
decreasing_by all_goals simp_wf <;> omega

/-- One filter key succeeding on an entity, in the sense of `apply_filter`:
for a nested mapping the `GraphIII` edge resolves to exactly one row and the
referenced entity recursively matches; for a scalar the `GraphIIT` edge and
its `Terminal` resolve to exactly one row each and the literal's value is
exactly the scalar. -/
def key_matches (db : DB) (object_id : Int) (prop : Int) : FilterVal → Prop
  | FilterVal.nested sub =>
    ∃ data, queryOne db.graphIII (fun t => t.subject = object_id ∧ t.predicate = prop) =
        .ok data ∧ apply_filter db data.object_ sub = .ok true
  | FilterVal.scalar s =>
    ∃ data terminal,
      queryOne db.graphIIT (fun t => t.subject = object_id ∧ t.predicate = prop) =
        .ok data ∧
      queryOne db.terminals (fun t => t.id = data.object_) = .ok terminal ∧
      terminal.value = s

/-- Modelled from the spec: the caller of `apply_filter`
(`get_all_filtered_instances` in `hydrus/data/resource_based_classes.py`,
which is not among the sources here) decides membership of an entity in the
filtered result; per the spec, "any edge-resolution failure during filtering
signals failure of the match for that entity (treated as does not match, not
propagated as a fatal error) - callers must catch the no-result case per
edge lookup". -/
def entity_matches (db : DB) (object_id : Int) (props : List (Int × FilterVal)) : Bool :=
  match apply_filter db object_id props with
  | .ok b => b
  | .error _ => false

/-- `crud_helpers.get_single_instance` (lines 229-243): `.one()` lookup of
the instance with the given id and class, with `NoResultFound` translated to
`InstanceNotFound`. -/
def get_single_instance (db : DB) (id_ : Int) (rdf_class : RDFClassRow) :
    Except PyErr InstanceRow :=
  match queryOne db.instances (fun i => i.id = id_ ∧ i.type_ = rdf_class.id) with
  | .ok i => .ok i
  | .error PyErr.noResultFound =>
    .error (PyErr.instanceNotFound rdf_class.name (toString id_))
  | .error e => .error e

/-- Python `dict` assignment `d[k] = v` on a string-keyed template:
overwrite in place when the key exists, append otherwise. -/
def dictSet (d : List (String × String)) (k v : String) : List (String × String) :=
  if d.any (fun kv => kv.1 = k) then
    d.map (fun kv => if kv.1 = k then (k, v) else kv)
  else d ++ [(k, v)]

/-- `crud_helpers.add_prop_name_to_object` (lines 258-292): check the
instance exists, then fold the three edge tables into the object template,
resolving each predicate to a property name and each object id to a class
name, instance id or literal value with `.one()`.  In the `GraphIIT` loop
the `Terminal` `.one()` lookup runs BEFORE the `try`, so its failure
propagates; the `try` only guards reading `terminal.value` from the row just
fetched, which cannot fail, so the `except BaseException` branch that would
store the empty string is unreachable. -/
def add_prop_name_to_object (db : DB) (id_ : Int)
    (object_template : List (String × String)) (rdf_class : RDFClassRow) :
    Except PyErr (List (String × String)) :=
  match get_single_instance db id_ rdf_class with
  | .error e => .error e
  | .ok _ =>
    let data_IAC := db.graphIAC.filter (fun t => t.subject = id_)
    let data_III := db.graphIII.filter (fun t => t.subject = id_)
    let data_IIT := db.graphIIT.filter (fun t => t.subject = id_)
    let step_IAC : List (String × String) → Triple →
        Except PyErr (List (String × String)) := fun tmpl data =>
      match queryOne db.properties (fun p => p.id = data.predicate) with
      | .error e => .error e
      | .ok prop =>
        match queryOne db.classes (fun c => c.id = data.object_) with
        | .error e => .error e
        | .ok cls => .ok (dictSet tmpl prop.name cls.name)
    let step_III : List (String × String) → Triple →
        Except PyErr (List (String × String)) := fun tmpl data =>
      match queryOne db.properties (fun p => p.id = data.predicate) with
      | .error e => .error e
      | .ok prop =>
        match queryOne db.instances (fun i => i.id = data.object_) with
        | .error e => .error e
        | .ok inst => .ok (dictSet tmpl prop.name (toString inst.id))
    let step_IIT : List (String × String) → Triple →
        Except PyErr (List (String × String)) := fun tmpl data =>
      match queryOne db.properties (fun p => p.id = data.predicate) with
      | .error e => .error e
      | .ok prop =>
        match queryOne db.terminals (fun t => t.id = data.object_) with
        | .error e => .error e
        | .ok terminal => .ok (dictSet tmpl prop.name terminal.value)
    match data_IAC.foldlM step_IAC object_template with
    | .error e => .error e
    | .ok tmpl1 =>
      match data_III.foldlM step_III tmpl1 with
      | .error e => .error e
      | .ok tmpl2 => data_IIT.foldlM step_IIT tmpl2

/-- A `Modification` row of the modification log. -/
structure ModificationRow where
  job_id : Int
  method : String
  resource_url : String
deriving Repr, DecidableEq

/-- `crud.get_modification_table_diff` (lines 445-478): with no
`agent_job_id`, all records ordered by ascending job id; otherwise the
`.one()` lookup of the agent's record, returning the empty list when it
finds nothing (`except NoResultFound: return []`), and the records with a
larger job id, ascending, when it succeeds.  `ORDER BY job_id ASC` is
modelled by insertion sort on `job_id`.  The response body repeats the three
columns of each row, so it is the row list itself here. -/
def get_modification_table_diff (mods : List ModificationRow)
    (agent_job_id : Option Int) : Except PyErr (List ModificationRow) :=
  match agent_job_id with
  | none => .ok (mods.insertionSort (fun a b => a.job_id ≤ b.job_id))
  | some jid =>
    match queryOne mods (fun m => m.job_id = jid) with
    | .error PyErr.noResultFound => .ok []
    | .error e => .error e
    | .ok record =>
      .ok ((mods.filter (fun m => m.job_id > record.job_id)).insertionSort
        (fun a b => a.job_id ≤ b.job_id))

/-! Helper lemmas shared by the claim theorems. -/

theorem calculate_false (ps pg rl : Int) (off lim : Option Int) :
    calculate_page_limit_and_offset false ps pg rl off lim = (rl, 0) := by
  unfold calculate_page_limit_and_offset
  cases lim <;> simp

theorem pre_process_ok_shape (params : Params) (paginate : Bool)
    (page_size result_length pg pl off : Int)
    (h : pre_process_pagination_parameters params paginate page_size result_length =
      .ok (pg, pl, off)) :
    ∃ offset limit, pre_process_styles params page_size result_length = .ok (pg, offset) ∧
      pre_process_limit params pg = .ok limit ∧
      (pl, off) =
        calculate_page_limit_and_offset paginate page_size pg result_length offset limit := by
  unfold pre_process_pagination_parameters at h
  cases hfi : find_incompatible_pair params with
  | some pair => rw [hfi] at h; exact absurd h (by simp)
  | none =>
    rw [hfi] at h
    dsimp only at h
    cases hs : pre_process_styles params page_size result_length with
    | error e => rw [hs] at h; exact absurd h (by simp)
    | ok po =>
      obtain ⟨page, offset⟩ := po
      rw [hs] at h
      dsimp only at h
      cases hl : pre_process_limit params page with
      | error e => rw [hl] at h; exact absurd h (by simp)
      | ok limit =>
        rw [hl] at h
        dsimp only at h
        simp only [Except.ok.injEq, Prod.mk.injEq] at h
        obtain ⟨h1, h2, h3⟩ := h
        subst h1
        exact ⟨offset, limit, rfl, hl, by rw [← h2, ← h3]⟩

theorem pyListGet_nat (l : List Int) (k : Nat) (h : k < l.length) :
    pyListGet l (k : Int) = .ok l[k] := by
  unfold pyListGet
  have h0 : ¬ ((k : Int) < 0) := by omega
  simp only [h0, if_false]
  rw [Int.toNat_natCast, List.get?_eq_getElem?, List.getElem?_eq_getElem h]
  simp

theorem sliceMembers_eq (l : List Int) (n : Nat) : ∀ k : Nat, k + n ≤ l.length →
    sliceMembers l (k : Int) n = .ok ((l.drop k).take n) := by
  induction n with
  | zero => intro k h; simp [sliceMembers]
  | succ n ih =>
    intro k h
    have hk : k < l.length := by omega
    have hrec := ih (k + 1) (by omega)
    unfold sliceMembers
    rw [pyListGet_nat l k hk]
    have hcast : (k : Int) + 1 = ((k + 1 : Nat) : Int) := by push_cast; ring
    rw [hcast, hrec, List.drop_eq_getElem_cons hk, List.take_succ_cons]

theorem sliceMembers_all (l : List Int) :
    sliceMembers l 0 l.length = .ok l := by
  have h := sliceMembers_eq l l.length 0 (by omega)
  simpa using h

theorem pre_process_ok_of (params : Params) (paginate : Bool)
    (page_size result_length p : Int) (o : Option Int) (lim : Option Int)
    (hfi : find_incompatible_pair params = none)
    (hs : pre_process_styles params page_size result_length = .ok (p, o))
    (hl : pre_process_limit params p = .ok lim) :
    pre_process_pagination_parameters params paginate page_size result_length =
      .ok (p, (calculate_page_limit_and_offset paginate page_size p result_length o lim).1,
        (calculate_page_limit_and_offset paginate page_size p result_length o lim).2) := by
  simp [pre_process_pagination_parameters, hfi, hs, hl]

/-- Concatenation of a list of strings, in order. -/
def joinAll : List String → String
  | [] => ""
  | a :: t => a ++ joinAll t

theorem recreate_iri_foldl (l : Params) : ∀ init : String,
    l.foldl (fun iri kv => if is_pagination_key kv.1 then iri
      else iri ++ kv.1 ++ "=" ++ kv.2 ++ "&") init =
    init ++ joinAll ((l.filter (fun kv => !is_pagination_key kv.1)).map
      (fun kv => kv.1 ++ "=" ++ kv.2 ++ "&")) := by
  induction l with
  | nil => intro init; simp [joinAll]
  | cons kv t ih =>
    intro init
    by_cases h : is_pagination_key kv.1
    · simp [List.foldl_cons, h, ih, List.filter_cons]
    · simp only [List.foldl_cons, h, if_false, ih, List.filter_cons,
        Bool.not_eq_true', h, Bool.not_false, if_true, List.map_cons, joinAll]
      simp [String.append_assoc]

/-! The claim theorems. -/

/-- Claim C1: whenever at least two of the style keys `page`, `pageIndex`,
`offset` are present, `pre_process_pagination_parameters` raises
`IncompatibleParameters` naming exactly the first conflicting pair in the
fixed pairwise order [page, pageIndex, offset]; with all three present the
reported pair is (page, pageIndex). -/
theorem C1_incompatible_pairs (params : Params) (paginate : Bool)
    (page_size result_length : Int) :
    (hasParam params "page" = true → hasParam params "pageIndex" = true →
      pre_process_pagination_parameters params paginate page_size result_length =
        .error (PyErr.incompatibleParameters ["page", "pageIndex"])) ∧
    (hasParam params "page" = true → hasParam params "offset" = true →
      hasParam params "pageIndex" = false →
      pre_process_pagination_parameters params paginate page_size result_length =
        .error (PyErr.incompatibleParameters ["page", "offset"])) ∧
    (hasParam params "pageIndex" = true → hasParam params "offset" = true →
      hasParam params "page" = false →
      pre_process_pagination_parameters params paginate page_size result_length =
        .error (PyErr.incompatibleParameters ["pageIndex", "offset"])) := by
  refine ⟨fun h1 h2 => ?_, fun h1 h2 h3 => ?_, fun h1 h2 h3 => ?_⟩ <;>
    simp_all [pre_process_pagination_parameters, find_incompatible_pair]

/-- Witness for C1: with all three style keys present the reported pair is
(page, pageIndex). -/
theorem C1_incompatible_pairs_witness :
    hasParam [("page", "1"), ("pageIndex", "2"), ("offset", "3")] "page" = true ∧
    hasParam [("page", "1"), ("pageIndex", "2"), ("offset", "3")] "pageIndex" = true ∧
    pre_process_pagination_parameters [("page", "1"), ("pageIndex", "2"), ("offset", "3")]
        true 10 25 =
      .error (PyErr.incompatibleParameters ["page", "pageIndex"]) :=
  ⟨by decide, by decide,
    (C1_incompatible_pairs [("page", "1"), ("pageIndex", "2"), ("offset", "3")] true 10 25).1
      (by decide) (by decide)⟩

/-- Claim C6 (code bug): the claim says a non-integer value for `page`,
`offset` or `limit` signals `PageNotFound`.  In the code the handler
`except ValueError: raise PageNotFound(page)` reads the local `page`, which
is unbound when the failing `int()` was the one for `page`, `pageIndex` or
`offset`, so those cases actually escape with `UnboundLocalError`; only a
non-integer `limit` (parsed after `page` is assigned) yields `PageNotFound`. -/
theorem C6_nonint_values :
    pre_process_pagination_parameters [("page", "abc")] true 10 0 =
      .error PyErr.unboundLocalError ∧
    pre_process_pagination_parameters [("pageIndex", "abc")] true 10 0 =
      .error PyErr.unboundLocalError ∧
    pre_process_pagination_parameters [("offset", "abc")] true 10 0 =
      .error PyErr.unboundLocalError ∧
    pre_process_pagination_parameters [("limit", "abc")] true 10 0 =
      .error (PyErr.pageNotFound "1") := by decide

/-- A database with one instance of one class carrying a single
literal-edge `(subject 1, predicate 2, object 99)` whose `Terminal` row with
id 99 does not exist. -/
def db_missing_terminal : DB :=
  ⟨[], [], [⟨1, 2, 99⟩], [], [⟨2, "name"⟩], [⟨1, "A"⟩], [⟨1, 1⟩]⟩

/-- Claim C8 (code bug): the claim says a failing literal resolution stores
the empty string instead of propagating an error.  In the code the
`Terminal` `.one()` lookup runs before the `try`, so a missing literal makes
`add_prop_name_to_object` propagate `NoResultFound`; nothing is stored. -/
theorem C8_literal_failure_propagates :
    add_prop_name_to_object db_missing_terminal 1 [] ⟨1, "A"⟩ =
      .error PyErr.noResultFound := by decide

/-- Claim C9: `recreate_iri` produces the base IRI whose query string drops
the keys `page`, `pageIndex` and `offset`, and keeps every other parameter,
serialized as `key=value` each followed by the `&` joiner, in the original
caller-supplied key order. -/
theorem C9_recreate_iri (API_NAME path : String) (search_params : Params) :
    recreate_iri API_NAME path search_params =
      "/" ++ API_NAME ++ "/" ++ path ++ "?" ++
        joinAll ((search_params.filter (fun kv => !is_pagination_key kv.1)).map
          (fun kv => kv.1 ++ "=" ++ kv.2 ++ "&")) := by
  unfold recreate_iri
  rw [recreate_iri_foldl]

/-- Counterexample to claim C2 as stated: the mapping
`{offset: "0", limit: "abc"}` has `offset` as its only style key and the
integer offset 0 lies in `[0, result_length]` for `result_length = 0` and
`page_size = 1`, yet `pre_process_pagination_parameters` does not succeed -
the non-integer `limit` makes it raise `PageNotFound`. -/
theorem C2_counterexample :
    (pre_process_pagination_parameters [("offset", "0"), ("limit", "abc")] true 1 0).isOk
      = false ∧
    pre_process_pagination_parameters [("offset", "0"), ("limit", "abc")] true 1 0 =
      .error (PyErr.pageNotFound "1") := by decide

/-- Claim C2 as amended: for `result_length ≥ 0`, `page_size > 0` and a
mapping whose only style key is `offset`, where any `limit` value present is
itself an integer: an integer offset in `[0, result_length]` makes
`pre_process_pagination_parameters` succeed returning
`page = offset // page_size + 1`, and an offset above `result_length` raises
`OffsetOutOfRange` (the latter even without the limit proviso, since the
offset range check runs before `limit` is parsed). -/
theorem C2_offset_roundtrip (params : Params) (paginate : Bool)
    (page_size result_length o : Int) (s : String)
    (hrl : 0 ≤ result_length) (hps : 0 < page_size)
    (hpage : params.lookup "page" = none) (hpidx : params.lookup "pageIndex" = none)
    (hoff : params.lookup "offset" = some s) (hparse : pyParseInt s = some o)
    (hlim : params.lookup "limit" = none ∨
      ∃ ls li, params.lookup "limit" = some ls ∧ pyParseInt ls = some li) :
    (0 ≤ o → o ≤ result_length →
      ∃ pl off, pre_process_pagination_parameters params paginate page_size result_length =
        .ok (o.fdiv page_size + 1, pl, off)) ∧
    (o > result_length →
      pre_process_pagination_parameters params paginate page_size result_length =
        .error (PyErr.offsetOutOfRange (toString o))) := by
  have hfi : find_incompatible_pair params = none := by
    simp [find_incompatible_pair, hasParam, hpage, hpidx]
  constructor
  · intro ho1 ho2
    have hno : ¬ (o > result_length) := by omega
    have hs : pre_process_styles params page_size result_length =
        .ok (o.fdiv page_size + 1, some o) := by
      simp [pre_process_styles, hpidx, hoff, hparse, hps.ne', hno]
    rcases hlim with hnone | ⟨ls, li, hls, hli⟩
    · have hl : pre_process_limit params (o.fdiv page_size + 1) = .ok none := by
        simp [pre_process_limit, hnone]
      exact ⟨_, _, pre_process_ok_of params paginate page_size result_length
        (o.fdiv page_size + 1) (some o) none hfi hs hl⟩
    · have hl : pre_process_limit params (o.fdiv page_size + 1) = .ok (some li) := by
        simp [pre_process_limit, hls, hli]
      exact ⟨_, _, pre_process_ok_of params paginate page_size result_length
        (o.fdiv page_size + 1) (some o) (some li) hfi hs hl⟩
  · intro ho
    have hs : pre_process_styles params page_size result_length =
        .error (PyErr.offsetOutOfRange (toString o)) := by
      simp [pre_process_styles, hpidx, hoff, hparse, hps.ne', ho]
    simp [pre_process_pagination_parameters, hfi, hs]

/-- Witness for C2: `offset = 5`, `page_size = 2`, `result_length = 10`
gives page `5 // 2 + 1 = 3`; `offset = 11` raises `OffsetOutOfRange`. -/
theorem C2_offset_roundtrip_witness :
    (0 : Int) ≤ 10 ∧ (0 : Int) < 2 ∧
    (∃ pl off, pre_process_pagination_parameters [("offset", "5")] true 2 10 =
      .ok (3, pl, off)) ∧
    pre_process_pagination_parameters [("offset", "11")] true 2 10 =
      .error (PyErr.offsetOutOfRange "11") := by
  refine ⟨by decide, by decide, ?_, ?_⟩
  · have h := (C2_offset_roundtrip [("offset", "5")] true 2 10 5 "5"
      (by decide) (by decide) (by decide) (by decide) (by decide) (by decide)
      (Or.inl (by decide))).1 (by decide) (by decide)
    simpa using h
  · exact (C2_offset_roundtrip [("offset", "11")] true 2 10 11 "11"
      (by decide) (by decide) (by decide) (by decide) (by decide) (by decide)
      (Or.inl (by decide))).2 (by decide)

/-- Claim C5: `calculate_page_limit_and_offset` substitutes a set `limit`
for `page_size`; with pagination disabled it returns offset 0 and limit
`result_length`, so `get_collection` returns all entities; with pagination
enabled and offset unset it returns offset `(page - 1) * page_size` and
limit `page_size`. -/
theorem C5_limit_and_unpaginated :
    (∀ (paginate : Bool) (ps pg rl l : Int) (off : Option Int),
      calculate_page_limit_and_offset paginate ps pg rl off (some l) =
        calculate_page_limit_and_offset paginate l pg rl off none) ∧
    (∀ (ps pg rl : Int) (off lim : Option Int),
      calculate_page_limit_and_offset false ps pg rl off lim = (rl, 0)) ∧
    (∀ ps pg rl : Int,
      calculate_page_limit_and_offset true ps pg rl none none = (ps, (pg - 1) * ps)) ∧
    (∀ (API path : String) (params : Params) (instances : List Int) (ps pg ps2 off : Int),
      pre_process_pagination_parameters params false ps (instances.length : Int) =
        .ok (pg, ps2, off) →
      ∃ r, get_collection API path false ps params instances = .ok r ∧
        r.members = instances) := by
  refine ⟨?_, ?_, ?_, ?_⟩
  · intro paginate ps pg rl l off
    simp [calculate_page_limit_and_offset]
  · intro ps pg rl off lim
    exact calculate_false ps pg rl off lim
  · intro ps pg rl
    simp [calculate_page_limit_and_offset]
  · intro API path params instances ps pg ps2 off h
    obtain ⟨offset, limit, hs, hl, hcalc⟩ :=
      pre_process_ok_shape params false ps (instances.length : Int) pg ps2 off h
    rw [calculate_false] at hcalc
    have h1 : ps2 = (instances.length : Int) := congrArg Prod.fst hcalc
    have h2 : off = 0 := congrArg Prod.snd hcalc
    subst h1; subst h2
    refine ⟨{ members := instances, totalItems := none, view := none }, ?_, rfl⟩
    unfold get_collection
    dsimp only
    rw [h]
    have hcur : current_page_size_of (instances.length : Int) 0 (instances.length : Int) =
        (instances.length : Int) := by simp [current_page_size_of]
    dsimp only
    rw [hcur, Int.toNat_natCast, sliceMembers_all]
    rfl

/-- Witness for C5: with pagination disabled, page size 10 and 5 instances,
the whole result set comes back. -/
theorem C5_limit_and_unpaginated_witness :
    pre_process_pagination_parameters [] false 10 ((demo5.length : Nat) : Int) =
      .ok (1, 5, 0) ∧
    ∃ r, get_collection "api" "P" false 10 [] demo5 = .ok r ∧ r.members = demo5 :=
  ⟨by decide,
    C5_limit_and_unpaginated.2.2.2 "api" "P" [] demo5 10 1 5 0 (by decide)⟩

/-- Claim C4: the shape of the hydra view for the offset style and the
page/pageIndex style, and the precedence offset > pageIndex > page of the
navigation parameter chosen by `get_collection`. -/
theorem C4_view_symmetry :
    (∀ (rl ps : Int) (iri : String) (off pg lst : Int),
      attach_hydra_view "offset" rl ps iri off pg lst =
        { atId := iri ++ "offset" ++ "=" ++ toString off
          first := iri ++ "offset" ++ "=0"
          last := iri ++ "offset" ++ "=" ++ toString (rl - ps)
          previous :=
            if off > ps then some (iri ++ "offset" ++ "=" ++ toString (off - ps)) else none
          next :=
            if off < rl - ps then some (iri ++ "offset" ++ "=" ++ toString (off + ps))
            else none }) ∧
    (∀ param : String, (param = "page" ∨ param = "pageIndex") →
      ∀ (rl ps : Int) (iri : String) (off pg lst : Int),
      attach_hydra_view param rl ps iri off pg lst =
        { atId := iri ++ param ++ "=" ++ toString pg
          first := iri ++ param ++ "=1"
          last := iri ++ param ++ "=" ++ toString lst
          previous :=
            if pg ≠ 1 then some (iri ++ param ++ "=" ++ toString (pg - 1)) else none
          next :=
            if pg ≠ lst then some (iri ++ param ++ "=" ++ toString (pg + 1))
            else none }) ∧
    (∀ p : Params,
      (hasParam p "offset" = true → choose_paginate_param p = "offset") ∧
      (hasParam p "offset" = false → hasParam p "pageIndex" = true →
        choose_paginate_param p = "pageIndex") ∧
      (hasParam p "offset" = false → hasParam p "pageIndex" = false →
        choose_paginate_param p = "page")) := by
  refine ⟨?_, ?_, ?_⟩
  · intro rl ps iri off pg lst
    simp [attach_hydra_view]
  · rintro param (rfl | rfl) rl ps iri off pg lst <;> simp [attach_hydra_view]
  · intro p
    refine ⟨fun h1 => ?_, fun h1 h2 => ?_, fun h1 h2 => ?_⟩ <;>
      simp [choose_paginate_param, h1] <;> simp [h2]

/-- Witness for C4: a middle page (`page = 2` of 3) carries both previous
and next links, and `pageIndex` wins over `page` as navigation parameter
when `offset` is absent. -/
theorem C4_view_symmetry_witness :
    ("page" = "page" ∨ "page" = "pageIndex") ∧
    attach_hydra_view "page" 25 10 "/api/P?" 10 2 3 =
      { atId := "/api/P?page=2", first := "/api/P?page=1", last := "/api/P?page=3",
        previous := some "/api/P?page=1", next := some "/api/P?page=3" } ∧
    choose_paginate_param [("pageIndex", "2")] = "pageIndex" :=
  ⟨Or.inl rfl,
    by rw [C4_view_symmetry.2.1 "page" (Or.inl rfl) 25 10 "/api/P?" 10 2 3]; decide,
    (C4_view_symmetry.2.2 [("pageIndex", "2")]).2.1 (by decide) (by decide)⟩

instance : IsTotal ModificationRow (fun a b => a.job_id ≤ b.job_id) :=
  ⟨fun a b => Int.le_total a.job_id b.job_id⟩

instance : IsTrans ModificationRow (fun a b => a.job_id ≤ b.job_id) :=
  ⟨fun _ _ _ h1 h2 => le_trans h1 h2⟩

/-- Claim C10: a non-None `agent_job_id` matching no record makes
`get_modification_table_diff` return the empty list (no error, no fallback
to all records); a None `agent_job_id` returns all records ordered by
ascending job id. -/
theorem C10_modification_diff :
    (∀ (mods : List ModificationRow) (jid : Int),
      (∀ m ∈ mods, m.job_id ≠ jid) →
      get_modification_table_diff mods (some jid) = .ok []) ∧
    (∀ mods : List ModificationRow,
      ∃ l, get_modification_table_diff mods none = .ok l ∧
        l.Perm mods ∧ l.Sorted (fun a b => a.job_id ≤ b.job_id)) := by
  constructor
  · intro mods jid h
    have hf : mods.filter (fun m => m.job_id = jid) = [] := by
      rw [List.filter_eq_nil_iff]
      intro a ha
      simpa using h a ha
    simp [get_modification_table_diff, queryOne, hf]
  · intro mods
    exact ⟨_, rfl, List.perm_insertionSort _ _, List.sorted_insertionSort _ _⟩

/-- Witness for C10: job id 2 matches no record of a one-record log, and the
diff is empty. -/
theorem C10_modification_diff_witness :
    (∀ m ∈ ([⟨1, "GET", "/a"⟩] : List ModificationRow), m.job_id ≠ 2) ∧
    get_modification_table_diff [⟨1, "GET", "/a"⟩] (some 2) = .ok [] :=
  ⟨by decide, C10_modification_diff.1 [⟨1, "GET", "/a"⟩] 2 (by decide)⟩

/-- Counterexample to the universal bound-check part of claim C3: with
pagination enabled, `page_size = 10`, five instances and `page = 0` (which
is `< 1`), `get_collection` fails with `IndexError` - the member loop runs
over `range(-10, 0)` and the negative indices reach past the front of the
five-element list before the bound check is ever reached - instead of the
claimed `PageNotFound`. -/
theorem C3_counterexample :
    get_collection "api" "P" true 10 [("page", "0")] demo5 = .error PyErr.indexError := by
  decide

/-- Claim C3 as amended: when pagination is enabled and the member slice is
computable, `get_collection` raises `PageNotFound` exactly when `page < 1`
or `page > last`, where `last` is `result_length // page_size` for a
non-zero evenly-divisible `result_length` and `result_length // page_size
+ 1` otherwise (in particular `last = 1` for `result_length = 0`); the
bound check runs only after the slice, and a sufficiently negative page
instead fails while slicing (see the counterexample).  Concretely, for 25
instances and page size 10, page 4 raises `PageNotFound` and page 3 returns
5 members. -/
theorem C3_page_bound :
    (∀ (API path : String) (params : Params) (instances : List Int)
      (ps pg ps2 off : Int) (ms : List Int),
      pre_process_pagination_parameters params true ps (instances.length : Int) =
        .ok (pg, ps2, off) →
      ps2 ≠ 0 →
      sliceMembers instances off
        (current_page_size_of (instances.length : Int) off ps2).toNat = .ok ms →
      ((pg < 1 ∨ pg > last_page_of (instances.length : Int) ps2) →
        get_collection API path true ps params instances =
          .error (PyErr.pageNotFound (toString pg))) ∧
      (¬(pg < 1 ∨ pg > last_page_of (instances.length : Int) ps2) →
        get_collection API path true ps params instances =
          .ok { members := ms
                totalItems := some (instances.length : Int)
                view := some (attach_hydra_view (choose_paginate_param params)
                  (instances.length : Int) ps2 (recreate_iri API path params) off pg
                  (last_page_of (instances.length : Int) ps2)) })) ∧
    (∀ ps : Int, last_page_of 0 ps = 1) ∧
    get_collection "api" "P" true 10 [("page", "4")] demo25 =
      .error (PyErr.pageNotFound "4") ∧
    (get_collection "api" "P" true 10 [("page", "3")] demo25).map
      (fun r => r.members.length) = .ok 5 := by
  refine ⟨?_, ?_, by decide, by decide⟩
  · intro API path params instances ps pg ps2 off ms h hps2 hslice
    unfold get_collection
    dsimp only
    rw [h]
    dsimp only
    rw [hslice]
    dsimp only
    rw [if_neg (by simp)]
    rw [if_neg hps2]
    constructor
    · intro hb
      rw [if_pos hb]
    · intro hb
      rw [if_neg hb]
  · intro ps
    simp [last_page_of, Int.zero_fdiv]

/-- Witness for C3: page 4 of 25 instances at page size 10 exceeds the last
page 3, and the bound check reports it. -/
theorem C3_page_bound_witness :
    pre_process_pagination_parameters [("page", "4")] true 10
        ((demo25.length : Nat) : Int) = .ok (4, 10, 30) ∧
    (10 : Int) ≠ 0 ∧
    sliceMembers demo25 30
      (current_page_size_of ((demo25.length : Nat) : Int) 30 10).toNat = .ok [] ∧
    get_collection "api" "P" true 10 [("page", "4")] demo25 =
      .error (PyErr.pageNotFound "4") :=
  ⟨by decide, by decide, by decide,
    (C3_page_bound.1 "api" "P" [("page", "4")] demo25 10 4 10 30 []
      (by decide) (by decide) (by decide)).1 (by decide)⟩

theorem apply_filter_nil (db : DB) (object_id : Int) :
    apply_filter db object_id [] = .ok true := by
  simp [apply_filter]

theorem apply_filter_cons_nested (db : DB) (object_id prop : Int)
    (sub rest : List (Int × FilterVal)) :
    apply_filter db object_id ((prop, FilterVal.nested sub) :: rest) =
      match queryOne db.graphIII (fun t => t.subject = object_id ∧ t.predicate = prop) with
      | .error e => .error e
      | .ok data =>
        match apply_filter db data.object_ sub with
        | .error e => .error e
        | .ok false => .ok false
        | .ok true => apply_filter db object_id rest := by
  simp [apply_filter]

theorem apply_filter_cons_scalar (db : DB) (object_id prop : Int) (s : String)
    (rest : List (Int × FilterVal)) :
    apply_filter db object_id ((prop, FilterVal.scalar s) :: rest) =
      match queryOne db.graphIIT (fun t => t.subject = object_id ∧ t.predicate = prop) with
      | .error e => .error e
      | .ok data =>
        match queryOne db.terminals (fun t => t.id = data.object_) with
        | .error e => .error e
        | .ok terminal =>
          if terminal.value ≠ s then .ok false
          else apply_filter db object_id rest := by
  simp [apply_filter]

theorem key_matches_nested (db : DB) (object_id prop : Int)
    (sub : List (Int × FilterVal)) :
    key_matches db object_id prop (FilterVal.nested sub) ↔
      ∃ data, queryOne db.graphIII
          (fun t => t.subject = object_id ∧ t.predicate = prop) = .ok data ∧
        apply_filter db data.object_ sub = .ok true :=
  Iff.rfl

theorem key_matches_scalar (db : DB) (object_id prop : Int) (s : String) :
    key_matches db object_id prop (FilterVal.scalar s) ↔
      ∃ data terminal, queryOne db.graphIIT
          (fun t => t.subject = object_id ∧ t.predicate = prop) = .ok data ∧
        queryOne db.terminals (fun t => t.id = data.object_) = .ok terminal ∧
        terminal.value = s :=
  Iff.rfl

/-- Claim C7: `apply_filter` returns true exactly when every filter key
succeeds (conjunctive semantics, with recursion through entity edges for
nested values and exact literal equality for scalars), and an
edge-resolution failure makes the entity count as not matching in the
spec-modelled caller instead of escaping the filter. -/
theorem C7_filter_conjunction :
    (∀ (db : DB) (object_id : Int) (props : List (Int × FilterVal)),
      apply_filter db object_id props = .ok true ↔
        ∀ pv ∈ props, key_matches db object_id pv.1 pv.2) ∧
    (∀ (db : DB) (object_id : Int) (props : List (Int × FilterVal)) (e : PyErr),
      apply_filter db object_id props = .error e →
      entity_matches db object_id props = false) := by
  constructor
  · intro db object_id props
    induction props with
    | nil => simp [apply_filter_nil]
    | cons pv rest ih =>
      obtain ⟨prop, v⟩ := pv
      cases v with
      | nested sub =>
        rw [apply_filter_cons_nested, List.forall_mem_cons]
        dsimp only
        rw [key_matches_nested]
        cases hq : queryOne db.graphIII
            (fun t => t.subject = object_id ∧ t.predicate = prop) with
        | error e => simp
        | ok data =>
          cases ha : apply_filter db data.object_ sub with
          | error e => simp [ha]
          | ok b =>
            cases b with
            | false => simp [ha]
            | true => simp [ha, ih]
      | scalar s =>
        rw [apply_filter_cons_scalar, List.forall_mem_cons]
        dsimp only
        rw [key_matches_scalar]
        cases hq : queryOne db.graphIIT
            (fun t => t.subject = object_id ∧ t.predicate = prop) with
        | error e => simp
        | ok data =>
          cases hq2 : queryOne db.terminals (fun t => t.id = data.object_) with
          | error e => simp [hq2]
          | ok terminal =>
            by_cases hv : terminal.value = s
            · simp [hq2, hv, ih]
            · simp [hq2, hv]
  · intro db object_id props e h
    unfold entity_matches
    rw [h]

/-- Witness for C7: a filter over an entity with no matching literal edge
produces a `NoResultFound` edge failure, and the spec-modelled caller counts
the entity as not matching. -/
theorem C7_filter_conjunction_witness :
    apply_filter ⟨[], [], [], [], [], [], []⟩ 0 [(1, FilterVal.scalar "x")] =
      .error PyErr.noResultFound ∧
    entity_matches ⟨[], [], [], [], [], [], []⟩ 0 [(1, FilterVal.scalar "x")] = false := by
  have h : apply_filter ⟨[], [], [], [], [], [], []⟩ 0 [(1, FilterVal.scalar "x")] =
      .error PyErr.noResultFound := by
    rw [apply_filter_cons_scalar]
    simp [queryOne]
  exact ⟨h, C7_filter_conjunction.2 ⟨[], [], [], [], [], [], []⟩ 0
    [(1, FilterVal.scalar "x")] PyErr.noResultFound h⟩
